import Mathlib

/-!
Verification of the core calculations of `lift_time_app.py`
(Drone Lift & Flight Time Explorer).

The script's domain logic is pure arithmetic over its inputs: a motor
spec (max single-motor thrust in kgf, motor mass in kg), a battery
energy in Wh, and fixed module-level constants.  We embed that
arithmetic shallowly over `ℚ`: every Python expression of the core
block (lines 70–93 of the source) becomes the corresponding rational
expression, the guarded divisions become `if` expressions, and the
`max(0.0, _)` clamps become `max 0 _`.  The motor catalog dict becomes
an association list in insertion order, and the sidebar label build /
`rsplit(" (", 1)` parse are modelled over `List Char`.
-/

namespace LiftTime

-- ─── Constants ── module-level constants of the script (lines 23–29).

def g : ℚ := 9.81

def empty_mass : ℚ := 5.0

def payload_fixed : ℚ := 10.0

def specific_energy : ℚ := 200.0

def power_req_coeff : ℚ := 200.0

def tw_min : ℚ := 1.6

def tw_rec : ℚ := 2.0

/-- A motor catalog entry: `{"thrust_kg": …, "motor_mass_kg": …}`. -/
structure MotorSpec where
  thrust_kg : ℚ
  motor_mass_kg : ℚ
  deriving DecidableEq, Repr

/-- The `motors` dict of the script, as an association list in the
dict's insertion order. -/
def motors : List (String × MotorSpec) :=
  [ ("MN5008 KV170",   ⟨4.0, 0.32⟩),
    ("MN6007II KV320", ⟨5.5, 0.30⟩),
    ("MN7005 KV115",   ⟨7.0, 0.33⟩),
    ("MN7005 KV230",   ⟨6.0, 0.28⟩),
    ("MN8012 KV100",   ⟨11.8, 0.351⟩),
    ("MN8014 KV100",   ⟨13.9, 0.392⟩),
    ("MN8017 KV120",   ⟨16.8, 0.453⟩),
    ("U15II KV80",     ⟨36.5, 1.74⟩),
    ("U15L KV43",      ⟨61.2, 3.60⟩),
    ("U15XXL KV29",    ⟨102.3, 5.13⟩),
    ("LIGPOWER U12II KV120", ⟨20.0, 0.50⟩),
    ("SUPER-E S150",         ⟨90.0, 9.10⟩) ]

/-- All quantities derived by the core calculation block
(`battery_mass` … `T_W_ratio`, source lines 71–87). -/
structure FlightResult where
  battery_mass_kg : ℚ
  total_thrust_kgf : ℚ
  total_thrust_N : ℚ
  available_extra_kg : ℚ
  total_mass_kg : ℚ
  hover_power_W : ℚ
  flight_time_min : ℚ
  tw_ratio : ℚ
  deriving DecidableEq, Repr

/-- The core calculation block of the script (lines 71–87), as a pure
function of the selected motor spec and the battery energy slider
value.  Each binding mirrors one assignment of the source:
`battery_mass = battery_Wh / specific_energy`,
`total_thrust_kgf = motor_thrust * (4 + 4 * 0.7)`,
`total_thrust_N = total_thrust_kgf * g`,
`available_extra = max(0.0, total_thrust_kgf - (empty_mass + battery_mass + payload_fixed))`,
`total_mass = empty_mass + battery_mass + payload_fixed`,
`P_hover = total_mass * power_req_coeff`,
`flight_time_h = battery_Wh / P_hover if P_hover>0 else 0.0`,
`flight_time_min = flight_time_h * 60`,
`T_W_ratio = total_thrust_kgf / total_mass if total_mass>0 else 0.0`. -/
def compute (specs : MotorSpec) (battery_Wh : ℚ) : FlightResult :=
  let battery_mass := battery_Wh / specific_energy
  let motor_thrust := specs.thrust_kg
  let total_thrust_kgf := motor_thrust * (4 + 4 * 0.7)
  let total_thrust_N := total_thrust_kgf * g
  let available_extra :=
    max 0.0 (total_thrust_kgf - (empty_mass + battery_mass + payload_fixed))
  let total_mass := empty_mass + battery_mass + payload_fixed
  let P_hover := total_mass * power_req_coeff
  let flight_time_h := if P_hover > 0 then battery_Wh / P_hover else 0.0
  let flight_time_min := flight_time_h * 60
  let T_W_ratio := if total_mass > 0 then total_thrust_kgf / total_mass else 0.0
  { battery_mass_kg := battery_mass
    total_thrust_kgf := total_thrust_kgf
    total_thrust_N := total_thrust_N
    available_extra_kg := available_extra
    total_mass_kg := total_mass
    hover_power_W := P_hover
    flight_time_min := flight_time_min
    tw_ratio := T_W_ratio }

/-- The battery-threshold computation of the script (lines 90–93),
generalised over the target T/W ratio exactly as the two source lines
instantiate it:
`bat_mass = total_thrust_kgf/tw_target - empty_mass - payload_fixed`,
`bat_Wh = max(0.0, bat_mass * specific_energy)`. -/
def batWhAt (specs : MotorSpec) (tw_target : ℚ) : ℚ :=
  let total_thrust_kgf := specs.thrust_kg * (4 + 4 * 0.7)
  let bat_mass := total_thrust_kgf / tw_target - empty_mass - payload_fixed
  max 0.0 (bat_mass * specific_energy)

/-- `(bat_Wh_min, bat_Wh_rec)` of the script (lines 90–93). -/
def thresholds (specs : MotorSpec) : ℚ × ℚ :=
  (batWhAt specs tw_min, batWhAt specs tw_rec)

/-- The threshold formula as §4.2 of the spec words it: battery mass
solving `total_thrust_kgf / (empty_mass + battery_mass + payload_fixed)
= tw_target` is `total_thrust_kgf / tw_target - empty_mass -
payload_fixed` with `total_thrust_kgf = thrust_kg * 6.8`; converted to
Wh via `* specific_energy` and clamped to `>= 0`.  Stated from the
spec's words, to be compared against `batWhAt` / `thresholds`. -/
def thresholdFromSpec (specs : MotorSpec) (tw_target : ℚ) : ℚ :=
  max 0 ((specs.thrust_kg * 6.8 / tw_target - empty_mass - payload_fixed) * specific_energy)

/-- Decimal rendering of a catalog thrust value as the f-string
`f"{data['thrust_kg']} kgf"` prints it: every thrust in the catalog is
a one-decimal float whose shortest (Python `repr`) form is
`<integer part>.<one digit>`. -/
def oneDecimal (q : ℚ) : String :=
  toString ((q * 10).num / 10) ++ "." ++ toString ((q * 10).num % 10)

/-- One entry of `motor_options` (line 52):
`f"{name} ({data['thrust_kg']} kgf)"`. -/
def motorLabel (name : String) (specs : MotorSpec) : String :=
  name ++ " (" ++ oneDecimal specs.thrust_kg ++ " kgf)"

/-- The portion of a character list strictly before the last occurrence
of the two-character separator `" ("` (`none` when the separator does
not occur).  An occurrence in the tail takes precedence, which selects
the last occurrence, as Python's `rsplit` does. -/
def rsplitParen : List Char → Option (List Char)
  | [] => none
  | c :: rest =>
    match rsplitParen rest with
    | some p => some (c :: p)
    | none => if c = ' ' ∧ rest.head? = some '(' then some [] else none

/-- `motor_name = sel.rsplit(" (", 1)[0]` (line 57): everything before
the last `" ("`; the whole string when the separator is absent. -/
def motor_name (sel : String) : String :=
  match rsplitParen sel.data with
  | some p => ⟨p⟩
  | none => sel

/-- Whether a character list contains the two-character separator
`" ("` anywhere. -/
def hasSep : List Char → Bool
  | [] => false
  | c :: rest => (c == ' ' && rest.head? == some '(') || hasSep rest

/-- `specs = motors[motor_name]` (line 58): catalog lookup by exact
key; a missing key is a failure (Python raises, here `none`). -/
def lookup (name : String) : Option MotorSpec :=
  (motors.find? (fun p => p.1 == name)).map (fun p => p.2)

-- ─── Helper lemmas ──────────────────────────────────────────────────

/-- Evaluating `oneDecimal` once the numerator of ten times its
argument is known. -/
theorem oneDecimal_eq {q : ℚ} {n : ℤ} (h : (q * 10).num = n) :
    oneDecimal q = toString (n / 10) ++ "." ++ toString (n % 10) := by
  rw [oneDecimal, h]

/-- Closed form of the flight time for non-negative battery energy:
with the fixed constants, `P_hover = 3000 + battery_Wh` is positive, so
the guarded branch is taken and
`flight_time_min = 60 * battery_Wh / (3000 + battery_Wh)`. -/
theorem flight_time_closed (specs : MotorSpec) (b : ℚ) (hb : 0 ≤ b) :
    (compute specs b).flight_time_min = 60 * b / (3000 + b) := by
  have hpos : (0:ℚ) < (empty_mass + b / specific_energy + payload_fixed) * power_req_coeff := by
    have h2 : (0:ℚ) ≤ b / 200 := by positivity
    norm_num [empty_mass, specific_energy, payload_fixed, power_req_coeff]
    linarith
  simp only [compute]
  rw [if_pos hpos]
  norm_num [empty_mass, specific_energy, payload_fixed, power_req_coeff]
  rw [show ((5:ℚ) + b / 200 + 10) * 200 = 3000 + b from by ring, div_mul_eq_mul_div,
    mul_comm]

/-- The clamped threshold is antitone in the target T/W ratio, and
strictly so whenever the threshold at the larger target is positive. -/
theorem batWhAt_antitone (specs : MotorSpec) {t1 t2 : ℚ}
    (h1 : 0 < t1) (h2 : t1 < t2) :
    batWhAt specs t2 ≤ batWhAt specs t1 ∧
      (0 < batWhAt specs t2 → batWhAt specs t2 < batWhAt specs t1) := by
  have ht2 : 0 < t2 := h1.trans h2
  have h00 : (0.0 : ℚ) = 0 := by norm_num
  simp only [batWhAt, h00]
  set T := specs.thrust_kg * (4 + 4 * 0.7) with hT
  rcases le_or_lt ((T / t2 - empty_mass - payload_fixed) * specific_energy) 0 with hc | hc
  · rw [max_eq_left hc]
    exact ⟨le_max_left _ _, fun hpos => absurd hpos (lt_irrefl 0)⟩
  · have hse : (0:ℚ) < specific_energy := by norm_num [specific_energy]
    have hsub : 0 < T / t2 - empty_mass - payload_fixed := by
      rcases mul_pos_iff.mp hc with ⟨ha, _⟩ | ⟨_, hb⟩
      · exact ha
      · linarith
    have h15 : (0:ℚ) < empty_mass + payload_fixed := by
      norm_num [empty_mass, payload_fixed]
    have hfrac : 0 < T / t2 := by linarith
    have hTpos : 0 < T := by
      rcases div_pos_iff.mp hfrac with ⟨ha, _⟩ | ⟨_, hb⟩
      · exact ha
      · linarith
    have hdiv : T / t2 < T / t1 := div_lt_div_of_pos_left hTpos h1 h2
    have hx : (T / t2 - empty_mass - payload_fixed) * specific_energy <
        (T / t1 - empty_mass - payload_fixed) * specific_energy := by
      apply mul_lt_mul_of_pos_right _ hse
      linarith
    rw [max_eq_right hc.le, max_eq_right (lt_trans hc hx).le]
    exact ⟨hx.le, fun _ => hx⟩

-- ─── Claim theorems ─────────────────────────────────────────────────

/-- C1: for the motor spec `{thrust_kg: 11.8, motor_mass_kg: 0.351}`
and `battery_Wh = 6000`, the core calculations yield exactly
`battery_mass_kg = 30.0`, `total_thrust_kgf = 80.24`,
`total_mass_kg = 45.0`, `hover_power_W = 9000`,
`flight_time_min = 40.0`, `tw_ratio = 80.24 / 45.0` and
`available_extra_kg = 35.24`. -/
theorem scenario1_exact :
    (compute ⟨11.8, 0.351⟩ 6000).battery_mass_kg = 30.0 ∧
    (compute ⟨11.8, 0.351⟩ 6000).total_thrust_kgf = 80.24 ∧
    (compute ⟨11.8, 0.351⟩ 6000).total_mass_kg = 45.0 ∧
    (compute ⟨11.8, 0.351⟩ 6000).hover_power_W = 9000 ∧
    (compute ⟨11.8, 0.351⟩ 6000).flight_time_min = 40.0 ∧
    (compute ⟨11.8, 0.351⟩ 6000).tw_ratio = 80.24 / 45.0 ∧
    (compute ⟨11.8, 0.351⟩ 6000).available_extra_kg = 35.24 := by
  norm_num [compute, empty_mass, payload_fixed, specific_energy, power_req_coeff]

/-- C2: for every motor spec, each of the two threshold battery
energies returned by `thresholds` equals the spec's formula
`max(0, (thrust_kg * 6.8 / tw_target - empty_mass - payload_fixed) *
specific_energy)` at the corresponding target ratio (`tw_min` for the
first component, `tw_rec` for the second). -/
theorem thresholds_eq_spec_formula (specs : MotorSpec) :
    (thresholds specs).1 = thresholdFromSpec specs tw_min ∧
    (thresholds specs).2 = thresholdFromSpec specs tw_rec := by
  have h68 : (4 + 4 * (0.7:ℚ)) = 6.8 := by norm_num
  have h00 : (0.0 : ℚ) = 0 := by norm_num
  simp only [thresholds, batWhAt, thresholdFromSpec, h68, h00]
  exact ⟨trivial, trivial⟩

/-- C3: for every motor spec, the flight time is `0` at
`battery_Wh = 0`, strictly increasing in `battery_Wh` over
`battery_Wh ≥ 0`, and bounded above by
`60 * specific_energy / power_req_coeff` (= 60) minutes. -/
theorem flight_time_zero_mono_bounded (specs : MotorSpec) (b b1 b2 : ℚ) :
    (compute specs 0).flight_time_min = 0 ∧
    (0 ≤ b1 → b1 < b2 →
      (compute specs b1).flight_time_min < (compute specs b2).flight_time_min) ∧
    (0 ≤ b → (compute specs b).flight_time_min ≤ 60 * specific_energy / power_req_coeff) := by
  refine ⟨?_, ?_, ?_⟩
  · rw [flight_time_closed specs 0 le_rfl]
    norm_num
  · intro hb1 hlt
    rw [flight_time_closed specs b1 hb1, flight_time_closed specs b2 (by linarith)]
    rw [div_lt_div_iff₀ (by linarith) (by linarith)]
    nlinarith
  · intro hb
    rw [flight_time_closed specs b hb,
      show (60:ℚ) * specific_energy / power_req_coeff = 60 from by
        norm_num [specific_energy, power_req_coeff]]
    rw [div_le_iff₀ (by linarith)]
    nlinarith

/-- C3 witness: the monotonicity and bound instantiated at the MN8012
motor with battery energies 1000 < 2000 and 6000. -/
theorem flight_time_zero_mono_bounded_witness :
    (compute ⟨11.8, 0.351⟩ 0).flight_time_min = 0 ∧
    (compute ⟨11.8, 0.351⟩ 1000).flight_time_min <
      (compute ⟨11.8, 0.351⟩ 2000).flight_time_min ∧
    (compute ⟨11.8, 0.351⟩ 6000).flight_time_min ≤
      60 * specific_energy / power_req_coeff :=
  ⟨(flight_time_zero_mono_bounded ⟨11.8, 0.351⟩ 6000 1000 2000).1,
   (flight_time_zero_mono_bounded ⟨11.8, 0.351⟩ 6000 1000 2000).2.1
     (by norm_num) (by norm_num),
   (flight_time_zero_mono_bounded ⟨11.8, 0.351⟩ 6000 1000 2000).2.2 (by norm_num)⟩

/-- C4 counterexample: for the positive motor spec
`{thrust_kg: 1, motor_mass_kg: 1}` both clamped thresholds are `0`, so
the threshold does NOT strictly decrease when the target ratio grows
from `tw_min` to `tw_rec`. -/
theorem thresholds_equal_at_weak_motor :
    tw_min < tw_rec ∧
    (thresholds ⟨1, 1⟩).1 = 0 ∧ (thresholds ⟨1, 1⟩).2 = 0 ∧
    ¬ (thresholds ⟨1, 1⟩).2 < (thresholds ⟨1, 1⟩).1 := by
  norm_num [thresholds, batWhAt, tw_min, tw_rec, empty_mass, payload_fixed,
    specific_energy]

/-- C4 (amended): the clamped threshold battery energy is weakly
decreasing in the target ratio, strictly decreasing whenever the
threshold at the larger target is positive; in particular
`bat_Wh_rec ≤ bat_Wh_min` for every motor spec. -/
theorem thresholds_antitone_clamped (specs : MotorSpec) (t1 t2 : ℚ)
    (h1 : 0 < t1) (h2 : t1 < t2) :
    batWhAt specs t2 ≤ batWhAt specs t1 ∧
    (0 < batWhAt specs t2 → batWhAt specs t2 < batWhAt specs t1) ∧
    (thresholds specs).2 ≤ (thresholds specs).1 := by
  refine ⟨(batWhAt_antitone specs h1 h2).1, (batWhAt_antitone specs h1 h2).2, ?_⟩
  exact (batWhAt_antitone specs (show (0:ℚ) < tw_min from by norm_num [tw_min])
    (show tw_min < tw_rec from by norm_num [tw_min, tw_rec])).1

/-- C4 witness: instantiated at the MN8012 motor and the targets
`tw_min < tw_rec`, with the strictness hypothesis discharged. -/
theorem thresholds_antitone_clamped_witness :
    batWhAt ⟨11.8, 0.351⟩ tw_rec < batWhAt ⟨11.8, 0.351⟩ tw_min ∧
    (thresholds ⟨11.8, 0.351⟩).2 ≤ (thresholds ⟨11.8, 0.351⟩).1 :=
  ⟨(thresholds_antitone_clamped ⟨11.8, 0.351⟩ tw_min tw_rec
      (by norm_num [tw_min]) (by norm_num [tw_min, tw_rec])).2.1
    (by norm_num [batWhAt, tw_rec, empty_mass, payload_fixed, specific_energy]),
   (thresholds_antitone_clamped ⟨11.8, 0.351⟩ tw_min tw_rec
      (by norm_num [tw_min]) (by norm_num [tw_min, tw_rec])).2.2⟩

/-- C5: for every motor spec and every `battery_Wh ≥ 0`, the available
extra payload is non-negative and equals
`max(0, total_thrust_kgf - total_mass_kg)`. -/
theorem available_extra_nonneg (specs : MotorSpec) (b : ℚ) (_hb : 0 ≤ b) :
    0 ≤ (compute specs b).available_extra_kg ∧
    (compute specs b).available_extra_kg =
      max 0 ((compute specs b).total_thrust_kgf - (compute specs b).total_mass_kg) := by
  have h00 : (0.0 : ℚ) = 0 := by norm_num
  simp only [compute, h00]
  exact ⟨le_max_left _ _, trivial⟩

/-- C5 witness: the available-extra clamp at the MN8012 motor and
`battery_Wh = 6000`. -/
theorem available_extra_nonneg_witness :
    0 ≤ (compute ⟨11.8, 0.351⟩ 6000).available_extra_kg ∧
    (compute ⟨11.8, 0.351⟩ 6000).available_extra_kg =
      max 0 ((compute ⟨11.8, 0.351⟩ 6000).total_thrust_kgf -
        (compute ⟨11.8, 0.351⟩ 6000).total_mass_kg) :=
  available_extra_nonneg ⟨11.8, 0.351⟩ 6000 (by norm_num)

/-- C6 counterexample: the core calculations do not reject a negative
battery energy — at `battery_Wh = -100` they return a result whose
battery mass is the computed `-0.5 kg`, which also differs from the
`battery_Wh = 0` result (so nothing was clamped to zero). -/
theorem compute_accepts_negative_battery :
    (compute ⟨11.8, 0.351⟩ (-100)).battery_mass_kg = -(1/2) ∧
    (compute ⟨11.8, 0.351⟩ (-100)).battery_mass_kg ≠
      (compute ⟨11.8, 0.351⟩ 0).battery_mass_kg := by
  norm_num [compute, specific_energy]

/-- C6 (amended): the core performs no input validation: for every
motor spec and every `battery_Wh` (negative included) it returns the
arithmetic result `battery_mass_kg = battery_Wh / specific_energy`,
which is negative — not clamped to zero — when `battery_Wh < 0`. -/
theorem compute_unvalidated (specs : MotorSpec) (b : ℚ) :
    (compute specs b).battery_mass_kg = b / specific_energy ∧
    (b < 0 → (compute specs b).battery_mass_kg < 0) := by
  refine ⟨rfl, fun hb => ?_⟩
  show b / specific_energy < 0
  apply div_neg_of_neg_of_pos hb
  norm_num [specific_energy]

/-- C6 witness: the unvalidated computation at `battery_Wh = -100`. -/
theorem compute_unvalidated_witness :
    (compute ⟨11.8, 0.351⟩ (-100)).battery_mass_kg = -100 / specific_energy ∧
    (compute ⟨11.8, 0.351⟩ (-100)).battery_mass_kg < 0 :=
  ⟨(compute_unvalidated ⟨11.8, 0.351⟩ (-100)).1,
   (compute_unvalidated ⟨11.8, 0.351⟩ (-100)).2 (by norm_num)⟩

/-- C7: under the fixed constants, `hover_power_W` is strictly positive
for every motor spec and every `battery_Wh ≥ 0`, so the flight time is
obtained through the `hover_power > 0` branch as
`battery_Wh / hover_power_W * 60`. -/
theorem hover_power_always_positive (specs : MotorSpec) (b : ℚ) (hb : 0 ≤ b) :
    0 < (compute specs b).hover_power_W ∧
    (compute specs b).flight_time_min = b / (compute specs b).hover_power_W * 60 := by
  have hpos : (0:ℚ) < (empty_mass + b / specific_energy + payload_fixed) * power_req_coeff := by
    have h2 : (0:ℚ) ≤ b / 200 := by positivity
    norm_num [empty_mass, specific_energy, payload_fixed, power_req_coeff]
    linarith
  refine ⟨hpos, ?_⟩
  simp only [compute]
  rw [if_pos hpos]

/-- C7 witness: positivity of the hover power and the branch taken at
`battery_Wh = 0`. -/
theorem hover_power_always_positive_witness :
    0 < (compute ⟨11.8, 0.351⟩ 0).hover_power_W ∧
    (compute ⟨11.8, 0.351⟩ 0).flight_time_min =
      0 / (compute ⟨11.8, 0.351⟩ 0).hover_power_W * 60 :=
  hover_power_always_positive ⟨11.8, 0.351⟩ 0 (by norm_num)

/-- C8: for every catalog entry, building the sidebar label
`f"{name} ({thrust_kg} kgf)"` and parsing it back by splitting on
the last `" ("` recovers the exact original name, and no catalog key
contains the substring `" ("`. -/
theorem motor_label_roundtrip (p : String × MotorSpec) (hp : p ∈ motors) :
    motor_name (motorLabel p.1 p.2) = p.1 ∧ hasSep p.1.data = false := by
  fin_cases hp
  · exact ⟨by
      show motor_name ("MN5008 KV170" ++ " (" ++ oneDecimal 4.0 ++ " kgf)") = "MN5008 KV170"
      rw [oneDecimal_eq (show ((4.0:ℚ) * 10).num = 40 by norm_num)]
      decide, by decide⟩
  · exact ⟨by
      show motor_name ("MN6007II KV320" ++ " (" ++ oneDecimal 5.5 ++ " kgf)") = "MN6007II KV320"
      rw [oneDecimal_eq (show ((5.5:ℚ) * 10).num = 55 by norm_num)]
      decide, by decide⟩
  · exact ⟨by
      show motor_name ("MN7005 KV115" ++ " (" ++ oneDecimal 7.0 ++ " kgf)") = "MN7005 KV115"
      rw [oneDecimal_eq (show ((7.0:ℚ) * 10).num = 70 by norm_num)]
      decide, by decide⟩
  · exact ⟨by
      show motor_name ("MN7005 KV230" ++ " (" ++ oneDecimal 6.0 ++ " kgf)") = "MN7005 KV230"
      rw [oneDecimal_eq (show ((6.0:ℚ) * 10).num = 60 by norm_num)]
      decide, by decide⟩
  · exact ⟨by
      show motor_name ("MN8012 KV100" ++ " (" ++ oneDecimal 11.8 ++ " kgf)") = "MN8012 KV100"
      rw [oneDecimal_eq (show ((11.8:ℚ) * 10).num = 118 by norm_num)]
      decide, by decide⟩
  · exact ⟨by
      show motor_name ("MN8014 KV100" ++ " (" ++ oneDecimal 13.9 ++ " kgf)") = "MN8014 KV100"
      rw [oneDecimal_eq (show ((13.9:ℚ) * 10).num = 139 by norm_num)]
      decide, by decide⟩
  · exact ⟨by
      show motor_name ("MN8017 KV120" ++ " (" ++ oneDecimal 16.8 ++ " kgf)") = "MN8017 KV120"
      rw [oneDecimal_eq (show ((16.8:ℚ) * 10).num = 168 by norm_num)]
      decide, by decide⟩
  · exact ⟨by
      show motor_name ("U15II KV80" ++ " (" ++ oneDecimal 36.5 ++ " kgf)") = "U15II KV80"
      rw [oneDecimal_eq (show ((36.5:ℚ) * 10).num = 365 by norm_num)]
      decide, by decide⟩
  · exact ⟨by
      show motor_name ("U15L KV43" ++ " (" ++ oneDecimal 61.2 ++ " kgf)") = "U15L KV43"
      rw [oneDecimal_eq (show ((61.2:ℚ) * 10).num = 612 by norm_num)]
      decide, by decide⟩
  · exact ⟨by
      show motor_name ("U15XXL KV29" ++ " (" ++ oneDecimal 102.3 ++ " kgf)") = "U15XXL KV29"
      rw [oneDecimal_eq (show ((102.3:ℚ) * 10).num = 1023 by norm_num)]
      decide, by decide⟩
  · exact ⟨by
      show motor_name ("LIGPOWER U12II KV120" ++ " (" ++ oneDecimal 20.0 ++ " kgf)") = "LIGPOWER U12II KV120"
      rw [oneDecimal_eq (show ((20.0:ℚ) * 10).num = 200 by norm_num)]
      decide, by decide⟩
  · exact ⟨by
      show motor_name ("SUPER-E S150" ++ " (" ++ oneDecimal 90.0 ++ " kgf)") = "SUPER-E S150"
      rw [oneDecimal_eq (show ((90.0:ℚ) * 10).num = 900 by norm_num)]
      decide, by decide⟩

/-- C8 witness: the label round-trip at the first catalog entry. -/
theorem motor_label_roundtrip_witness :
    motor_name (motorLabel "MN5008 KV170" ⟨4.0, 0.32⟩) = "MN5008 KV170" ∧
    hasSep ("MN5008 KV170" : String).data = false :=
  motor_label_roundtrip ("MN5008 KV170", ⟨4.0, 0.32⟩) (by simp [motors])

/-- C9: catalog lookup fails exactly on names that are not keys of the
table — in particular on `"NONEXISTENT"` — and returns the stored spec
for every name that is a key; no fallback spec is ever substituted. -/
theorem lookup_contract :
    (∀ name, lookup name = none ↔ name ∉ motors.map Prod.fst) ∧
    lookup "NONEXISTENT" = none ∧
    (∀ p ∈ motors, lookup p.1 = some p.2) := by
  refine ⟨?_, rfl, ?_⟩
  · intro name
    simp only [lookup, Option.map_eq_none', List.find?_eq_none, beq_iff_eq,
      List.mem_map]
    constructor
    · rintro h ⟨p, hp, rfl⟩
      exact h p hp rfl
    · intro h p hp hpe
      exact h ⟨p, hp, hpe⟩
  · intro p hp
    fin_cases hp <;> rfl

/-- C9 witness: lookup fails on `"NONEXISTENT"` and returns the stored
spec for the first catalog key. -/
theorem lookup_contract_witness :
    lookup "NONEXISTENT" = none ∧
    lookup "MN5008 KV170" = some ⟨4.0, 0.32⟩ :=
  ⟨lookup_contract.2.1,
   lookup_contract.2.2 ("MN5008 KV170", ⟨4.0, 0.32⟩) (by simp [motors])⟩

/-- C10: no computed quantity depends on the motor mass — two motor
specs with equal thrust and arbitrary motor masses give identical
results from the core calculations and identical thresholds. -/
theorem results_ignore_motor_mass (s1 s2 : MotorSpec) (b : ℚ)
    (h : s1.thrust_kg = s2.thrust_kg) :
    compute s1 b = compute s2 b ∧ thresholds s1 = thresholds s2 := by
  constructor
  · simp only [compute, h]
  · simp only [thresholds, batWhAt, h]

/-- C10 witness: identical results for the MN8012 thrust with two
different motor masses. -/
theorem results_ignore_motor_mass_witness :
    compute ⟨11.8, 0.351⟩ 6000 = compute ⟨11.8, 2.0⟩ 6000 ∧
    thresholds ⟨11.8, 0.351⟩ = thresholds ⟨11.8, 2.0⟩ :=
  results_ignore_motor_mass ⟨11.8, 0.351⟩ ⟨11.8, 2.0⟩ 6000 rfl

end LiftTime
